import Mathlib

/-
Verification of the sado-connect wallet session core.

Shallow embedding of:
  - SelectWalletModal (onError, onConnectUnisatWallet, onConnectXverseWallet,
    connectToUnisatWalletOnLoad) from the modal component source;
  - the signMsg function of useSignMessage.tsx.

The wallet extensions (getAddresses, signMessage, the accountsChanged
listener registry) are external collaborators; their responses enter the
model as explicit parameters of type Except JsError. Listener closures are
modelled by freshly allocated numeric tokens: each invocation of
onConnectUnisatWallet allocates a new token, mirroring the fact that the
JavaScript source allocates a new listener closure per call, and
removeListener / addListener compare closures by identity.

The OrdConnectProvider (Identity Store) is not part of the given sources;
its setters and disconnectWallet are modelled from the spec, as marked.
-/

/-- Wallet kinds supported by the connect modal (the Wallet enum of the provider). -/
inductive Wallet
  | UNISAT
  | XVERSE
  deriving DecidableEq, Repr

/-- One entry of the address list returned by a wallet extension getAddresses call. -/
structure WalletAddress where
  address : String
  publicKey : String
  format : String
  deriving DecidableEq, Repr

/-- Classification of a JavaScript error value: the two SDK error classes the
modal checks with instanceof, and plain Error for everything else. -/
inductive ErrKind
  | notInstalled
  | cancelled
  | plain
  deriving DecidableEq, Repr

/-- A JavaScript error value: its class (kind) and its message. -/
structure JsError where
  kind : ErrKind
  msg : String
  deriving DecidableEq, Repr

/-- The name property of the error, as the SDK error classes set it. -/
def JsError.name : JsError → String
  | ⟨ErrKind.notInstalled, _⟩ => "BrowserWalletNotInstalledError"
  | ⟨ErrKind.cancelled, _⟩ => "BrowserWalletRequestCancelledByUserError"
  | ⟨ErrKind.plain, _⟩ => "Error"

/-- JavaScript String(err) for an Error value: name, or name ++ ": " ++ message
when the message is nonempty. This is the message of new Error(err). -/
def jsToString (e : JsError) : String :=
  if e.msg = "" then e.name else e.name ++ ": " ++ e.msg

/-- Modelled from the spec: the Identity Store held by the OrdConnectProvider
(the provider source is not included; only its callers are). It holds the
connected wallet kind, the network, and the six identity fields; a field is
none when cleared. -/
structure OrdStore where
  wallet : Option Wallet
  network : String
  ordinalsAddress : Option String
  paymentsAddress : Option String
  ordinalsPublicKey : Option String
  paymentsPublicKey : Option String
  ordinalsFormat : Option String
  paymentsFormat : Option String
  deriving DecidableEq, Repr

/-- Modelled from the spec: the provider setter updateAddress writes the ordinal
and payment addresses of the Identity Store. -/
def updateAddress (ordinals payments : String) (st : OrdStore) : OrdStore :=
  {st with ordinalsAddress := some ordinals, paymentsAddress := some payments}

/-- Modelled from the spec: the provider setter updatePublicKey writes the ordinal
and payment public keys of the Identity Store. -/
def updatePublicKey (ordinals payments : String) (st : OrdStore) : OrdStore :=
  {st with ordinalsPublicKey := some ordinals, paymentsPublicKey := some payments}

/-- Modelled from the spec: the provider setter updateFormat writes the ordinal
and payment address formats of the Identity Store. -/
def updateFormat (ordinals payments : String) (st : OrdStore) : OrdStore :=
  {st with ordinalsFormat := some ordinals, paymentsFormat := some payments}

/-- Modelled from the spec: the provider setter updateWallet records the connected
wallet kind. -/
def updateWallet (w : Wallet) (st : OrdStore) : OrdStore :=
  {st with wallet := some w}

/-- Modelled from the spec: disconnectWallet clears the Identity Store entirely,
leaving the empty identity and no connected wallet (section 4.2 of the spec);
the network setting is retained. -/
def disconnectStore (st : OrdStore) : OrdStore :=
  { st with
    wallet := none
    ordinalsAddress := none
    paymentsAddress := none
    ordinalsPublicKey := none
    paymentsPublicKey := none
    ordinalsFormat := none
    paymentsFormat := none }

/-- Observable state of the modal component together with the browser-side
resources it manipulates: the Identity Store, the errorMessage React state,
the registry of accountsChanged listener tokens held by window.unisat, the
fresh-token counter (closure allocation), the open flag of the modal, the
pages opened via window.open, and a counter of getAddresses extension calls. -/
structure ModalState where
  store : OrdStore
  errorMessage : String
  listeners : List Nat
  nextListenerId : Nat
  modalOpen : Bool
  openedPages : List String
  extCalls : Nat
  deriving DecidableEq, Repr

/-- Modelled from the spec: disconnectWallet deregisters the active account-change
listener, if any, and clears the Identity Store (section 4.2 of the spec). -/
def disconnectWallet (s : ModalState) : ModalState :=
  {s with store := disconnectStore s.store, listeners := []}

/-- WALLET_CHROME_EXTENSION_URL of the modal source. -/
def walletChromeExtensionUrl : Wallet → String
  | Wallet.UNISAT => "https://unisat.io/download"
  | Wallet.XVERSE => "https://www.xverse.app/download"

/-- The onError callback of the modal: for BrowserWalletNotInstalledError open the
extension install page, then record the error message and disconnect. -/
def onError (walletProvider : Wallet) (e : JsError) (s : ModalState) : ModalState :=
  let pages :=
    if e.kind = ErrKind.notInstalled then
      s.openedPages ++ [walletChromeExtensionUrl walletProvider]
    else s.openedPages
  disconnectWallet {s with openedPages := pages, errorMessage := e.msg}

/-- The error thrown when the Unisat extension returns an empty address list. -/
def unisatEmptyError : JsError :=
  ⟨ErrKind.plain, "Unisat via Ordit returned no addresses."⟩

/-- The error thrown when the Xverse extension returns an empty address list. -/
def xverseEmptyError : JsError :=
  ⟨ErrKind.plain, "Xverse via Ordit returned no addresses."⟩

/-- The error thrown when the Xverse address list lacks a p2sh-p2wpkh or a taproot
entry. -/
def xverseIncompleteError : JsError :=
  ⟨ErrKind.plain, "Xverse via Ordit did not return P2SH or Taproot addresses."⟩

/-- onConnectUnisatWallet of the modal source. A fresh listener token is
allocated (the JavaScript source creates a new closure on every invocation);
removeListener is called with that fresh token; the error message is reset;
then getAddresses is consulted (its outcome is the resp parameter). An empty
list disconnects and throws; otherwise the first entry is written to both
sides of the identity, the fresh token is registered as the accountsChanged
listener and the modal closes. Every thrown error lands in onError and the
call returns false. -/
def onConnectUnisatWallet (readOnly : Bool)
    (resp : Except JsError (List WalletAddress)) (s : ModalState) :
    Bool × ModalState :=
  let t := s.nextListenerId
  let s1 := {s with nextListenerId := t + 1}
  let s2 := {s1 with listeners := s1.listeners.erase t}
  let s3 := {s2 with errorMessage := ""}
  let s4 := {s3 with extCalls := s3.extCalls + 1}
  match resp with
  | Except.error e => (false, onError Wallet.UNISAT e s4)
  | Except.ok unisat =>
    match unisat with
    | [] => (false, onError Wallet.UNISAT unisatEmptyError (disconnectWallet s4))
    | unisatWallet :: _ =>
      let s5 := {s4 with store := updateAddress unisatWallet.address unisatWallet.address s4.store}
      let s6 := {s5 with store := updatePublicKey unisatWallet.publicKey unisatWallet.publicKey s5.store}
      let s7 := {s6 with store := updateWallet Wallet.UNISAT s6.store}
      let s8 := {s7 with store := updateFormat unisatWallet.format unisatWallet.format s7.store}
      let s9 := {s8 with listeners := s8.listeners ++ [t]}
      let s10 := {s9 with modalOpen := false}
      (true, s10)

/-- onConnectXverseWallet of the modal source: reset the error message, consult
getAddresses, fail on an empty list, locate the p2sh-p2wpkh and taproot
entries, fail if either is missing, otherwise write taproot data to the
ordinal side and p2sh data to the payment side and close the modal. -/
def onConnectXverseWallet (resp : Except JsError (List WalletAddress))
    (s : ModalState) : Bool × ModalState :=
  let s3 := {s with errorMessage := ""}
  let s4 := {s3 with extCalls := s3.extCalls + 1}
  match resp with
  | Except.error e => (false, onError Wallet.XVERSE e s4)
  | Except.ok xverse =>
    match xverse with
    | [] => (false, onError Wallet.XVERSE xverseEmptyError (disconnectWallet s4))
    | x :: xs =>
      match (x :: xs).find? (fun walletAddress => walletAddress.format == "p2sh-p2wpkh"),
            (x :: xs).find? (fun walletAddress => walletAddress.format == "taproot") with
      | some p2sh, some taproot =>
        let s5 := {s4 with store := updateAddress taproot.address p2sh.address s4.store}
        let s6 := {s5 with store := updatePublicKey taproot.publicKey p2sh.publicKey s5.store}
        let s7 := {s6 with store := updateWallet Wallet.XVERSE s6.store}
        let s8 := {s7 with store := updateFormat taproot.format p2sh.format s7.store}
        let s9 := {s8 with modalOpen := false}
        (true, s9)
      | _, _ => (false, onError Wallet.XVERSE xverseIncompleteError s4)

/-- JavaScript truthiness of a nullable string: null and the empty string are
falsy. -/
def truthy : Option String → Bool
  | some s => s != ""
  | none => false

/-- Modelled from the spec: the address, publicKey and format values the modal
reads from the provider are truthy exactly when the persisted identity is
fully populated with nonempty strings (a nonempty identity, section 4.2). -/
def identityPresent (st : OrdStore) : Bool :=
  truthy st.ordinalsAddress && truthy st.paymentsAddress &&
  truthy st.ordinalsPublicKey && truthy st.paymentsPublicKey &&
  truthy st.ordinalsFormat && truthy st.paymentsFormat

/-- The mount effect of the modal: when the persisted wallet is Unisat and the
identity is present, wait for the extension to become ready (the outcome of
waitForUnisatExtensionReady is the ready parameter, modelled from the spec as
a bounded wait returning false on timeout); on timeout disconnect, otherwise
run a readOnly connect. Any other persisted state leaves everything alone. -/
def connectToUnisatWalletOnLoad (ready : Bool)
    (resp : Except JsError (List WalletAddress)) (s : ModalState) : ModalState :=
  if s.store.wallet = some Wallet.UNISAT ∧ identityPresent s.store = true then
    if !ready then disconnectWallet s
    else (onConnectUnisatWallet true resp s).2
  else s

/-- React state local to the useSignMessage hook. -/
structure SignState where
  error : Option String
  isLoading : Bool
  deriving DecidableEq, Repr

/-- Everything observable about one signMsg call: the value returned or the
message of the error thrown to the caller, the final hook state, the Identity
Store as the hook leaves it, and whether the signMessage primitive ran. -/
structure SignResult where
  result : Except String String
  state : SignState
  store : OrdStore
  invoked : Bool
  deriving Repr

/-- The error thrown by signMsg when no wallet is connected. -/
def noWalletConnectedError : JsError := ⟨ErrKind.plain, "No wallet is connected"⟩

/-- signMsg of useSignMessage.tsx: set isLoading, clear the error, throw when
format or publicKey is falsy, otherwise delegate to the signMessage primitive
(its outcome is the signResp parameter). Every caught error e is recorded as
e.message and rethrown as new Error(e), whose message is String(e). The hook
has no store setter in scope, so the Identity Store passes through
unchanged. -/
def signMsg (format publicKey : Option String) (store : OrdStore)
    (signResp : Except JsError String) (address message : String)
    (st : SignState) : SignResult :=
  let st1 : SignState := {st with isLoading := true}
  let st2 : SignState := {st1 with error := none}
  if !truthy format || !truthy publicKey then
    ⟨Except.error (jsToString noWalletConnectedError),
     {st2 with error := some noWalletConnectedError.msg, isLoading := false},
     store, false⟩
  else
    match signResp with
    | Except.error e =>
      ⟨Except.error (jsToString e),
       {st2 with error := some e.msg, isLoading := false}, store, true⟩
    | Except.ok signedMessage =>
      ⟨Except.ok signedMessage, {st2 with isLoading := false}, store, true⟩

/-- The Identity Store is fully empty: no connected wallet and all six identity
fields cleared. -/
def storeEmpty (st : OrdStore) : Prop :=
  st.wallet = none ∧ st.ordinalsAddress = none ∧ st.paymentsAddress = none ∧
  st.ordinalsPublicKey = none ∧ st.paymentsPublicKey = none ∧
  st.ordinalsFormat = none ∧ st.paymentsFormat = none

/-- All six identity fields populated, or all six empty. -/
def allOrNothing (st : OrdStore) : Prop :=
  (st.ordinalsAddress.isSome = true ∧ st.paymentsAddress.isSome = true ∧
   st.ordinalsPublicKey.isSome = true ∧ st.paymentsPublicKey.isSome = true ∧
   st.ordinalsFormat.isSome = true ∧ st.paymentsFormat.isSome = true) ∨
  (st.ordinalsAddress = none ∧ st.paymentsAddress = none ∧
   st.ordinalsPublicKey = none ∧ st.paymentsPublicKey = none ∧
   st.ordinalsFormat = none ∧ st.paymentsFormat = none)

/-- The error, if any, that a Unisat connect raises for a given extension
response: the response error itself, or the empty-list error. -/
def unisatConnectError : Except JsError (List WalletAddress) → Option JsError
  | Except.error e => some e
  | Except.ok [] => some unisatEmptyError
  | Except.ok (_ :: _) => none

/-- The error, if any, that an Xverse connect raises for a given extension
response: the response error, the empty-list error, or the incomplete-set
error when a required format is missing. -/
def xverseConnectError : Except JsError (List WalletAddress) → Option JsError
  | Except.error e => some e
  | Except.ok [] => some xverseEmptyError
  | Except.ok (x :: xs) =>
    match (x :: xs).find? (fun walletAddress => walletAddress.format == "p2sh-p2wpkh"),
          (x :: xs).find? (fun walletAddress => walletAddress.format == "taproot") with
    | some _, some _ => none
    | _, _ => some xverseIncompleteError

/-- An empty store over mainnet. -/
def emptyStore : OrdStore :=
  ⟨none, "mainnet", none, none, none, none, none, none⟩

/-- Fresh page state: empty store, no error, no listeners, modal open. -/
def initialModalState : ModalState := ⟨emptyStore, "", [], 0, true, [], 0⟩

/-- A sample single-address extension response entry. -/
def sampleAddr : WalletAddress := ⟨"bc1qsample", "pubkey1", "p2wpkh"⟩

/-- A store persisted from an earlier Unisat session, fully populated. -/
def connectedStore : OrdStore :=
  ⟨some Wallet.UNISAT, "mainnet", some "bc1pord", some "bc1qpay",
   some "pkord", some "pkpay", some "taproot", some "p2wpkh"⟩

/-- Page-reload state: persisted Unisat identity, one listener token already
registered by the previous session. -/
def connectedModalState : ModalState := ⟨connectedStore, "", [0], 1, false, [], 0⟩

/-- A store persisted from an earlier Xverse session, fully populated. -/
def xverseStore : OrdStore :=
  ⟨some Wallet.XVERSE, "mainnet", some "bc1pord", some "3pay",
   some "pkord", some "pkpay", some "taproot", some "p2sh-p2wpkh"⟩

/-- Page-reload state for a persisted Xverse session. -/
def xverseModalState : ModalState := ⟨xverseStore, "", [], 0, false, [], 0⟩

/-- C1: the claim states that two sequential successful Unisat connects leave at
most one registered accountsChanged listener. The code removes a listener
closure created inside the current call, which was never registered, so the
listener of the previous connect survives: after two successful connects two
listener tokens are registered and an accountsChanged event would fire the
callback twice. -/
theorem unisat_double_connect_registers_two_listeners :
    (onConnectUnisatWallet false (Except.ok [sampleAddr]) initialModalState).1 = true ∧
    (onConnectUnisatWallet false (Except.ok [sampleAddr])
      (onConnectUnisatWallet false (Except.ok [sampleAddr]) initialModalState).2).1 = true ∧
    ((onConnectUnisatWallet false (Except.ok [sampleAddr])
      (onConnectUnisatWallet false (Except.ok [sampleAddr]) initialModalState).2).2).listeners
      = [0, 1] := by
  exact ⟨rfl, rfl, rfl⟩

/-- C3: after every connect invocation, successful or failed, for either wallet
kind and any extension response, the six identity fields of the store are
either all populated or all empty. -/
theorem connect_all_or_nothing_invariant (readOnly : Bool)
    (resp : Except JsError (List WalletAddress)) (s : ModalState) :
    allOrNothing ((onConnectUnisatWallet readOnly resp s).2).store ∧
    allOrNothing ((onConnectXverseWallet resp s).2).store := by
  constructor
  · cases resp with
    | error e =>
      simp [onConnectUnisatWallet, onError, disconnectWallet, disconnectStore,
        allOrNothing]
    | ok l =>
      cases l with
      | nil =>
        simp [onConnectUnisatWallet, onError, disconnectWallet, disconnectStore,
          allOrNothing]
      | cons w rest =>
        simp [onConnectUnisatWallet, updateAddress, updatePublicKey, updateWallet,
          updateFormat, allOrNothing]
  · cases resp with
    | error e =>
      simp [onConnectXverseWallet, onError, disconnectWallet, disconnectStore,
        allOrNothing]
    | ok l =>
      cases l with
      | nil =>
        simp [onConnectXverseWallet, onError, disconnectWallet, disconnectStore,
          allOrNothing]
      | cons x xs =>
        simp only [onConnectXverseWallet]
        split
        · simp [updateAddress, updatePublicKey, updateWallet, updateFormat,
            allOrNothing]
        · simp [onError, disconnectWallet, disconnectStore, allOrNothing]

/-- C5: a Unisat connect on a nonempty extension response replicates the first
returned entry into both sides of the identity (addresses, public keys and
formats all taken from that entry) and returns true. -/
theorem unisat_connect_replicates_first_address (readOnly : Bool)
    (w : WalletAddress) (rest : List WalletAddress) (s : ModalState) :
    (onConnectUnisatWallet readOnly (Except.ok (w :: rest)) s).1 = true ∧
    ((onConnectUnisatWallet readOnly (Except.ok (w :: rest)) s).2).store.ordinalsAddress
      = some w.address ∧
    ((onConnectUnisatWallet readOnly (Except.ok (w :: rest)) s).2).store.paymentsAddress
      = some w.address ∧
    ((onConnectUnisatWallet readOnly (Except.ok (w :: rest)) s).2).store.ordinalsPublicKey
      = some w.publicKey ∧
    ((onConnectUnisatWallet readOnly (Except.ok (w :: rest)) s).2).store.paymentsPublicKey
      = some w.publicKey ∧
    ((onConnectUnisatWallet readOnly (Except.ok (w :: rest)) s).2).store.ordinalsFormat
      = some w.format ∧
    ((onConnectUnisatWallet readOnly (Except.ok (w :: rest)) s).2).store.paymentsFormat
      = some w.format ∧
    ((onConnectUnisatWallet readOnly (Except.ok (w :: rest)) s).2).store.wallet
      = some Wallet.UNISAT := by
  exact ⟨rfl, rfl, rfl, rfl, rfl, rfl, rfl, rfl⟩

/-- Helper: onError always leaves the Identity Store fully empty and records the
message of the error it was handed. -/
theorem onError_clears_and_records (wp : Wallet) (e : JsError) (s : ModalState) :
    storeEmpty (onError wp e s).store ∧ (onError wp e s).errorMessage = e.msg := by
  simp [onError, disconnectWallet, disconnectStore, storeEmpty]

/-- Helper: a Unisat connect returns false exactly when the response produced a
connect error. -/
theorem unisat_fail_iff (readOnly : Bool) (resp : Except JsError (List WalletAddress))
    (s : ModalState) :
    (onConnectUnisatWallet readOnly resp s).1 = false ↔
    (unisatConnectError resp).isSome = true := by
  cases resp with
  | error e => simp [onConnectUnisatWallet, unisatConnectError]
  | ok l =>
    cases l with
    | nil => simp [onConnectUnisatWallet, unisatConnectError]
    | cons w rest => simp [onConnectUnisatWallet, unisatConnectError]

/-- Helper: a failing Unisat connect empties the store and records the message of
the connect error. -/
theorem unisat_fail_state (readOnly : Bool) (resp : Except JsError (List WalletAddress))
    (s : ModalState) (e : JsError) (he : unisatConnectError resp = some e) :
    storeEmpty ((onConnectUnisatWallet readOnly resp s).2).store ∧
    ((onConnectUnisatWallet readOnly resp s).2).errorMessage = e.msg := by
  cases resp with
  | error e2 =>
    have h : e2 = e := by simpa [unisatConnectError] using he
    rw [← h]
    exact onError_clears_and_records Wallet.UNISAT e2 _
  | ok l =>
    cases l with
    | nil =>
      have h : e = unisatEmptyError := by simpa [unisatConnectError] using he.symm
      subst h
      exact onError_clears_and_records Wallet.UNISAT unisatEmptyError _
    | cons w rest => simp [unisatConnectError] at he

/-- Helper: a failing Unisat connect never touches the modal-open flag, and it
leaves the set of opened pages unchanged whenever the failing error is not the
not-installed error (onError opens the install page only for that error). -/
theorem unisat_fail_frame (readOnly : Bool) (resp : Except JsError (List WalletAddress))
    (s : ModalState) (e : JsError) (he : unisatConnectError resp = some e) :
    ((onConnectUnisatWallet readOnly resp s).2).modalOpen = s.modalOpen ∧
    (e.kind ≠ ErrKind.notInstalled →
      ((onConnectUnisatWallet readOnly resp s).2).openedPages = s.openedPages) := by
  cases resp with
  | error e2 =>
    have h2 : e2 = e := by simpa [unisatConnectError] using he
    refine ⟨rfl, ?_⟩
    intro hk
    rw [← h2] at hk
    simp [onConnectUnisatWallet, onError, disconnectWallet, hk]
  | ok l =>
    cases l with
    | nil =>
      refine ⟨rfl, ?_⟩
      intro hk
      simp [onConnectUnisatWallet, onError, disconnectWallet, unisatEmptyError]
    | cons w rest => simp [unisatConnectError] at he

/-- Helper: an Xverse connect returns false exactly when the response produced a
connect error. -/
theorem xverse_fail_iff (resp : Except JsError (List WalletAddress)) (s : ModalState) :
    (onConnectXverseWallet resp s).1 = false ↔
    (xverseConnectError resp).isSome = true := by
  cases resp with
  | error e => simp [onConnectXverseWallet, xverseConnectError]
  | ok l =>
    cases l with
    | nil => simp [onConnectXverseWallet, xverseConnectError]
    | cons x xs =>
      cases hp : (x :: xs).find? (fun walletAddress => walletAddress.format == "p2sh-p2wpkh") with
      | none =>
        cases ht : (x :: xs).find? (fun walletAddress => walletAddress.format == "taproot") with
        | none => simp [onConnectXverseWallet, xverseConnectError, hp, ht]
        | some t => simp [onConnectXverseWallet, xverseConnectError, hp, ht]
      | some p =>
        cases ht : (x :: xs).find? (fun walletAddress => walletAddress.format == "taproot") with
        | none => simp [onConnectXverseWallet, xverseConnectError, hp, ht]
        | some t => simp [onConnectXverseWallet, xverseConnectError, hp, ht]

/-- Helper: a failing Xverse connect empties the store and records the message of
the connect error. -/
theorem xverse_fail_state (resp : Except JsError (List WalletAddress)) (s : ModalState)
    (e : JsError) (he : xverseConnectError resp = some e) :
    storeEmpty ((onConnectXverseWallet resp s).2).store ∧
    ((onConnectXverseWallet resp s).2).errorMessage = e.msg := by
  cases resp with
  | error e2 =>
    have h : e2 = e := by simpa [xverseConnectError] using he
    rw [← h]
    exact onError_clears_and_records Wallet.XVERSE e2 _
  | ok l =>
    cases l with
    | nil =>
      have h : e = xverseEmptyError := by simpa [xverseConnectError] using he.symm
      subst h
      exact onError_clears_and_records Wallet.XVERSE xverseEmptyError _
    | cons x xs =>
      cases hp : (x :: xs).find? (fun walletAddress => walletAddress.format == "p2sh-p2wpkh") with
      | none =>
        have h : e = xverseIncompleteError := by
          rw [xverseConnectError] at he
          rw [hp] at he
          cases ht : (x :: xs).find? (fun walletAddress => walletAddress.format == "taproot") with
          | none => rw [ht] at he; simpa using he.symm
          | some t => rw [ht] at he; simpa using he.symm
        subst h
        have hgoal :
            (onConnectXverseWallet (Except.ok (x :: xs)) s).2 =
              onError Wallet.XVERSE xverseIncompleteError
                {s with errorMessage := "", extCalls := s.extCalls + 1} := by
          simp only [onConnectXverseWallet, hp]
        rw [hgoal]
        exact onError_clears_and_records Wallet.XVERSE xverseIncompleteError _
      | some p =>
        cases ht : (x :: xs).find? (fun walletAddress => walletAddress.format == "taproot") with
        | none =>
          have h : e = xverseIncompleteError := by
            rw [xverseConnectError] at he
            rw [hp, ht] at he
            simpa using he.symm
          subst h
          have hgoal :
              (onConnectXverseWallet (Except.ok (x :: xs)) s).2 =
                onError Wallet.XVERSE xverseIncompleteError
                  {s with errorMessage := "", extCalls := s.extCalls + 1} := by
            simp only [onConnectXverseWallet, hp, ht]
          rw [hgoal]
          exact onError_clears_and_records Wallet.XVERSE xverseIncompleteError _
        | some t =>
          rw [xverseConnectError] at he
          rw [hp, ht] at he
          simp at he

/-- C2: every failed connect, for either wallet kind and whatever step failed,
leaves the Identity Store fully empty (all identity fields cleared, no
connected wallet), records the message of the failing error as the
user-facing error message, and the call returns false exactly when an error
arose. -/
theorem connect_failure_clears_store_and_records_error (readOnly : Bool)
    (resp : Except JsError (List WalletAddress)) (s : ModalState) :
    ((onConnectUnisatWallet readOnly resp s).1 = false ↔
      (unisatConnectError resp).isSome = true) ∧
    ((onConnectUnisatWallet readOnly resp s).1 = false →
      storeEmpty ((onConnectUnisatWallet readOnly resp s).2).store ∧
      ∃ e, unisatConnectError resp = some e ∧
        ((onConnectUnisatWallet readOnly resp s).2).errorMessage = e.msg) ∧
    ((onConnectXverseWallet resp s).1 = false ↔
      (xverseConnectError resp).isSome = true) ∧
    ((onConnectXverseWallet resp s).1 = false →
      storeEmpty ((onConnectXverseWallet resp s).2).store ∧
      ∃ e, xverseConnectError resp = some e ∧
        ((onConnectXverseWallet resp s).2).errorMessage = e.msg) := by
  refine ⟨unisat_fail_iff readOnly resp s, ?_, xverse_fail_iff resp s, ?_⟩
  · intro h
    rcases Option.isSome_iff_exists.mp ((unisat_fail_iff readOnly resp s).mp h) with ⟨e, he⟩
    rcases unisat_fail_state readOnly resp s e he with ⟨h1, h2⟩
    exact ⟨h1, e, he, h2⟩
  · intro h
    rcases Option.isSome_iff_exists.mp ((xverse_fail_iff resp s).mp h) with ⟨e, he⟩
    rcases xverse_fail_state resp s e he with ⟨h1, h2⟩
    exact ⟨h1, e, he, h2⟩

/-- C2 witness: a concrete cancelled Unisat connect returns false, leaves the
store empty and records the message of the cancellation error. -/
theorem connect_failure_clears_store_and_records_error_witness :
    (onConnectUnisatWallet false
      (Except.error ⟨ErrKind.cancelled, "User rejected the request"⟩)
      initialModalState).1 = false ∧
    (storeEmpty ((onConnectUnisatWallet false
        (Except.error ⟨ErrKind.cancelled, "User rejected the request"⟩)
        initialModalState).2).store ∧
      ∃ e, unisatConnectError
          (Except.error ⟨ErrKind.cancelled, "User rejected the request"⟩) = some e ∧
        ((onConnectUnisatWallet false
          (Except.error ⟨ErrKind.cancelled, "User rejected the request"⟩)
          initialModalState).2).errorMessage = e.msg) :=
  ⟨rfl,
    (connect_failure_clears_store_and_records_error false
      (Except.error ⟨ErrKind.cancelled, "User rejected the request"⟩)
      initialModalState).2.1 rfl⟩

/-- C4 counterexample: the empty Xverse response lacks an entry of each required
format, yet the connect fails with the empty-response error, not the
incomplete-address-set error the claim names; so the claim, read over every
response lacking a required format, fails at the empty list. -/
theorem xverse_empty_list_counterexample :
    ([] : List WalletAddress).find?
      (fun walletAddress => walletAddress.format == "p2sh-p2wpkh") = none ∧
    ([] : List WalletAddress).find?
      (fun walletAddress => walletAddress.format == "taproot") = none ∧
    (onConnectXverseWallet (Except.ok []) initialModalState).1 = false ∧
    ((onConnectXverseWallet (Except.ok []) initialModalState).2).errorMessage
      = xverseEmptyError.msg ∧
    ((onConnectXverseWallet (Except.ok []) initialModalState).2).errorMessage
      ≠ xverseIncompleteError.msg := by
  refine ⟨rfl, rfl, rfl, rfl, ?_⟩
  decide

/-- C4 (amended): for a nonempty Xverse response lacking a p2sh-p2wpkh entry or
lacking a taproot entry, the connect fails with the incomplete-address-set
error, returns false and leaves the store empty with no identity field
populated; an empty response instead fails with the empty-response error,
likewise returning false with an empty store. -/
theorem xverse_missing_format_fails_incomplete (x : WalletAddress)
    (xs : List WalletAddress) (s : ModalState)
    (hmiss : (x :: xs).find?
        (fun walletAddress => walletAddress.format == "p2sh-p2wpkh") = none ∨
      (x :: xs).find?
        (fun walletAddress => walletAddress.format == "taproot") = none) :
    (onConnectXverseWallet (Except.ok (x :: xs)) s).1 = false ∧
    ((onConnectXverseWallet (Except.ok (x :: xs)) s).2).errorMessage
      = xverseIncompleteError.msg ∧
    storeEmpty ((onConnectXverseWallet (Except.ok (x :: xs)) s).2).store ∧
    (onConnectXverseWallet (Except.ok []) s).1 = false ∧
    ((onConnectXverseWallet (Except.ok []) s).2).errorMessage = xverseEmptyError.msg ∧
    storeEmpty ((onConnectXverseWallet (Except.ok []) s).2).store := by
  have he : xverseConnectError (Except.ok (x :: xs)) = some xverseIncompleteError := by
    rcases hmiss with hp | ht
    · rw [xverseConnectError, hp]
    · rw [xverseConnectError, ht]
      cases hp2 : (x :: xs).find?
          (fun walletAddress => walletAddress.format == "p2sh-p2wpkh") with
      | none => rfl
      | some p => rfl
  rcases xverse_fail_state (Except.ok (x :: xs)) s xverseIncompleteError he with ⟨h1, h2⟩
  refine ⟨?_, h2, h1, rfl, rfl, ?_⟩
  · rw [xverse_fail_iff (Except.ok (x :: xs)) s, he]
    rfl
  · exact (onError_clears_and_records Wallet.XVERSE xverseEmptyError _).1

/-- C4 witness: a concrete one-element response holding only a p2sh-p2wpkh entry
fails with the incomplete-address-set error and an empty store. -/
theorem xverse_missing_format_fails_incomplete_witness :
    ((⟨"a1", "pk1", "p2sh-p2wpkh"⟩ :: ([] : List WalletAddress)).find?
        (fun walletAddress => walletAddress.format == "taproot") = none) ∧
    ((onConnectXverseWallet (Except.ok [⟨"a1", "pk1", "p2sh-p2wpkh"⟩])
        initialModalState).1 = false ∧
      ((onConnectXverseWallet (Except.ok [⟨"a1", "pk1", "p2sh-p2wpkh"⟩])
        initialModalState).2).errorMessage = xverseIncompleteError.msg ∧
      storeEmpty ((onConnectXverseWallet (Except.ok [⟨"a1", "pk1", "p2sh-p2wpkh"⟩])
        initialModalState).2).store ∧
      (onConnectXverseWallet (Except.ok []) initialModalState).1 = false ∧
      ((onConnectXverseWallet (Except.ok []) initialModalState).2).errorMessage
        = xverseEmptyError.msg ∧
      storeEmpty ((onConnectXverseWallet (Except.ok []) initialModalState).2).store) :=
  ⟨by decide,
    xverse_missing_format_fails_incomplete ⟨"a1", "pk1", "p2sh-p2wpkh"⟩ []
      initialModalState (Or.inr (by decide))⟩

/-- C6: a signMsg call with no connected identity (format or publicKey falsy)
throws the no-wallet-connected error and never invokes the signMessage
extension primitive; the recorded hook error is the original message. -/
theorem sign_no_wallet_connected (format publicKey : Option String) (store : OrdStore)
    (signResp : Except JsError String) (address message : String) (st : SignState)
    (h : truthy format = false ∨ truthy publicKey = false) :
    (signMsg format publicKey store signResp address message st).result
      = Except.error (jsToString noWalletConnectedError) ∧
    (signMsg format publicKey store signResp address message st).invoked = false ∧
    (signMsg format publicKey store signResp address message st).state.error
      = some noWalletConnectedError.msg := by
  rcases h with h | h <;> simp [signMsg, h]

/-- C6 witness: a concrete call with a cleared identity fails with the
no-wallet-connected error and does not reach the signing primitive. -/
theorem sign_no_wallet_connected_witness :
    (truthy none = false ∨ truthy (some "pk") = false) ∧
    ((signMsg none (some "pk") emptyStore (Except.ok "sig") "addr" "hello"
        ⟨none, false⟩).result = Except.error (jsToString noWalletConnectedError) ∧
      (signMsg none (some "pk") emptyStore (Except.ok "sig") "addr" "hello"
        ⟨none, false⟩).invoked = false ∧
      (signMsg none (some "pk") emptyStore (Except.ok "sig") "addr" "hello"
        ⟨none, false⟩).state.error = some noWalletConnectedError.msg) :=
  ⟨Or.inl rfl,
    sign_no_wallet_connected none (some "pk") emptyStore (Except.ok "sig") "addr"
      "hello" ⟨none, false⟩ (Or.inl rfl)⟩

/-- C7: when the signing primitive fails, signMsg rethrows new Error(e), whose
message is String(e) and so carries the original message as a suffix; the
original message is also recorded verbatim in the hook error state, and the
Identity Store (wallet, network and all identity fields) is unchanged, the
hook having no store setter in scope. -/
theorem sign_failure_preserves_message_and_store (format publicKey : Option String)
    (store : OrdStore) (e : JsError) (address message : String) (st : SignState)
    (hf : truthy format = true) (hp : truthy publicKey = true) :
    (signMsg format publicKey store (Except.error e) address message st).result
      = Except.error (jsToString e) ∧
    (∃ p, jsToString e = p ++ e.msg) ∧
    (signMsg format publicKey store (Except.error e) address message st).state.error
      = some e.msg ∧
    (signMsg format publicKey store (Except.error e) address message st).store
      = store := by
  refine ⟨?_, ?_, ?_, ?_⟩
  · simp [signMsg, hf, hp]
  · by_cases hm : e.msg = ""
    · exact ⟨e.name, by simp [jsToString, hm]⟩
    · exact ⟨e.name ++ ": ", by simp [jsToString, hm]⟩
  · simp [signMsg, hf, hp]
  · simp [signMsg, hf, hp]

/-- C7 witness: a concrete failing signature request rethrows the wrapped error,
records the original message and leaves the concrete store untouched. -/
theorem sign_failure_preserves_message_and_store_witness :
    (truthy (some "taproot") = true ∧ truthy (some "pk") = true) ∧
    ((signMsg (some "taproot") (some "pk") connectedStore
        (Except.error ⟨ErrKind.plain, "sign failed"⟩) "addr" "hello"
        ⟨none, false⟩).result
        = Except.error (jsToString ⟨ErrKind.plain, "sign failed"⟩) ∧
      (∃ p, jsToString ⟨ErrKind.plain, "sign failed"⟩
        = p ++ (⟨ErrKind.plain, "sign failed"⟩ : JsError).msg) ∧
      (signMsg (some "taproot") (some "pk") connectedStore
        (Except.error ⟨ErrKind.plain, "sign failed"⟩) "addr" "hello"
        ⟨none, false⟩).state.error = some (⟨ErrKind.plain, "sign failed"⟩ : JsError).msg ∧
      (signMsg (some "taproot") (some "pk") connectedStore
        (Except.error ⟨ErrKind.plain, "sign failed"⟩) "addr" "hello"
        ⟨none, false⟩).store = connectedStore) :=
  ⟨⟨rfl, rfl⟩,
    sign_failure_preserves_message_and_store (some "taproot") (some "pk")
      connectedStore ⟨ErrKind.plain, "sign failed"⟩ "addr" "hello" ⟨none, false⟩
      rfl rfl⟩

/-- C8: when the persisted Unisat identity triggers the reconnect-on-load flow
and the extension-readiness wait times out, the flow disconnects (store fully
cleared), never consults getAddresses (the extension-call counter is
untouched), and returns normally; the embedding is a total function, so
nothing is thrown to the caller. -/
theorem reconnect_timeout_ends_disconnected (resp : Except JsError (List WalletAddress))
    (s : ModalState) (hw : s.store.wallet = some Wallet.UNISAT)
    (hi : identityPresent s.store = true) :
    connectToUnisatWalletOnLoad false resp s = disconnectWallet s ∧
    storeEmpty (connectToUnisatWalletOnLoad false resp s).store ∧
    (connectToUnisatWalletOnLoad false resp s).extCalls = s.extCalls := by
  have hg : connectToUnisatWalletOnLoad false resp s = disconnectWallet s := by
    simp [connectToUnisatWalletOnLoad, hw, hi]
  refine ⟨hg, ?_, ?_⟩
  · rw [hg]
    simp [disconnectWallet, disconnectStore, storeEmpty]
  · rw [hg]
    rfl

/-- C8 witness: a concrete persisted Unisat session whose readiness wait times
out ends disconnected without an extension call. -/
theorem reconnect_timeout_ends_disconnected_witness :
    (connectedModalState.store.wallet = some Wallet.UNISAT ∧
      identityPresent connectedModalState.store = true) ∧
    (connectToUnisatWalletOnLoad false (Except.ok [sampleAddr]) connectedModalState
        = disconnectWallet connectedModalState ∧
      storeEmpty (connectToUnisatWalletOnLoad false (Except.ok [sampleAddr])
        connectedModalState).store ∧
      (connectToUnisatWalletOnLoad false (Except.ok [sampleAddr])
        connectedModalState).extCalls = connectedModalState.extCalls) :=
  ⟨⟨rfl, rfl⟩,
    reconnect_timeout_ends_disconnected (Except.ok [sampleAddr]) connectedModalState
      rfl rfl⟩

/-- C9 counterexample: with a persisted Unisat identity, a ready extension and a
readOnly connect that fails because the extension returns an empty list, the
reconnect-on-load path records a user-facing error message, contradicting the
claim that every failure on this path sets no error message. -/
theorem reconnect_readonly_failure_sets_error_message :
    connectedModalState.errorMessage = "" ∧
    (connectToUnisatWalletOnLoad true (Except.ok []) connectedModalState).errorMessage
      = unisatEmptyError.msg ∧
    (connectToUnisatWalletOnLoad true (Except.ok []) connectedModalState).errorMessage
      ≠ "" := by
  refine ⟨rfl, rfl, ?_⟩
  decide

/-- C9 (amended): on the reconnect-on-load path a readiness timeout degrades
silently: the store is cleared while the error message, the set of opened
pages and the modal-open flag are all untouched. A failing readOnly connect
also ends with an empty store, never touches the modal-open flag (so no modal
is shown), and — whenever the failure is not the not-installed error, which
readiness rules out on this path — opens no install page; but it does record
a user-facing error message from the failing error, through the shared
connect error handler. -/
theorem reconnect_failure_amended (resp : Except JsError (List WalletAddress))
    (s : ModalState) (hw : s.store.wallet = some Wallet.UNISAT)
    (hi : identityPresent s.store = true) :
    (storeEmpty (connectToUnisatWalletOnLoad false resp s).store ∧
      (connectToUnisatWalletOnLoad false resp s).errorMessage = s.errorMessage ∧
      (connectToUnisatWalletOnLoad false resp s).openedPages = s.openedPages ∧
      (connectToUnisatWalletOnLoad false resp s).modalOpen = s.modalOpen) ∧
    ((onConnectUnisatWallet true resp s).1 = false →
      storeEmpty (connectToUnisatWalletOnLoad true resp s).store ∧
      (connectToUnisatWalletOnLoad true resp s).modalOpen = s.modalOpen ∧
      ∃ e, unisatConnectError resp = some e ∧
        (connectToUnisatWalletOnLoad true resp s).errorMessage = e.msg) ∧
    ((∀ e, resp = Except.error e → e.kind ≠ ErrKind.notInstalled) →
      (onConnectUnisatWallet true resp s).1 = false →
      (connectToUnisatWalletOnLoad true resp s).openedPages = s.openedPages) := by
  have hg1 : connectToUnisatWalletOnLoad false resp s = disconnectWallet s := by
    simp [connectToUnisatWalletOnLoad, hw, hi]
  have hg2 : connectToUnisatWalletOnLoad true resp s
      = (onConnectUnisatWallet true resp s).2 := by
    simp [connectToUnisatWalletOnLoad, hw, hi]
  refine ⟨?_, ?_, ?_⟩
  · rw [hg1]
    refine ⟨?_, rfl, rfl, rfl⟩
    simp [disconnectWallet, disconnectStore, storeEmpty]
  · intro h
    rcases Option.isSome_iff_exists.mp ((unisat_fail_iff true resp s).mp h) with ⟨e, he⟩
    rcases unisat_fail_state true resp s e he with ⟨h1, h2⟩
    rcases unisat_fail_frame true resp s e he with ⟨hm, _⟩
    rw [hg2]
    exact ⟨h1, hm, e, he, h2⟩
  · intro hready h
    rcases Option.isSome_iff_exists.mp ((unisat_fail_iff true resp s).mp h) with ⟨e, he⟩
    have hkind : e.kind ≠ ErrKind.notInstalled := by
      cases resp with
      | error e2 =>
        have h2 : e2 = e := by simpa [unisatConnectError] using he
        rw [← h2]
        exact hready e2 rfl
      | ok l =>
        cases l with
        | nil =>
          have h2 : e = unisatEmptyError := by simpa [unisatConnectError] using he.symm
          rw [h2]
          decide
        | cons w rest => simp [unisatConnectError] at he
    rcases unisat_fail_frame true resp s e he with ⟨_, hop⟩
    rw [hg2]
    exact hop hkind

/-- C9 witness: for a concrete persisted Unisat session, a readiness timeout is
silent (message, pages and modal flag untouched), and a failing readOnly
connect (empty list) clears the store, touches neither modal flag nor opened
pages, and records the empty-response message. -/
theorem reconnect_failure_amended_witness :
    (connectedModalState.store.wallet = some Wallet.UNISAT ∧
      identityPresent connectedModalState.store = true ∧
      (onConnectUnisatWallet true (Except.ok []) connectedModalState).1 = false) ∧
    (storeEmpty (connectToUnisatWalletOnLoad false (Except.ok [])
        connectedModalState).store ∧
      (connectToUnisatWalletOnLoad false (Except.ok []) connectedModalState).errorMessage
        = connectedModalState.errorMessage ∧
      (connectToUnisatWalletOnLoad false (Except.ok []) connectedModalState).openedPages
        = connectedModalState.openedPages ∧
      (connectToUnisatWalletOnLoad false (Except.ok []) connectedModalState).modalOpen
        = connectedModalState.modalOpen) ∧
    (storeEmpty (connectToUnisatWalletOnLoad true (Except.ok [])
        connectedModalState).store ∧
      (connectToUnisatWalletOnLoad true (Except.ok []) connectedModalState).modalOpen
        = connectedModalState.modalOpen ∧
      ∃ e, unisatConnectError (Except.ok ([] : List WalletAddress)) = some e ∧
        (connectToUnisatWalletOnLoad true (Except.ok []) connectedModalState).errorMessage
          = e.msg) ∧
    (connectToUnisatWalletOnLoad true (Except.ok []) connectedModalState).openedPages
      = connectedModalState.openedPages :=
  ⟨⟨rfl, rfl, rfl⟩,
    (reconnect_failure_amended (Except.ok []) connectedModalState rfl rfl).1,
    (reconnect_failure_amended (Except.ok []) connectedModalState rfl rfl).2.1 rfl,
    (reconnect_failure_amended (Except.ok []) connectedModalState rfl rfl).2.2
      (fun e h => Except.noConfusion h) rfl⟩

/-- C10: the reconnect-on-load effect runs only for a persisted Unisat wallet with
a fully present identity; for any other persisted state (an Xverse session,
or a partially empty identity) the effect performs no adapter call and leaves
the whole state, Identity Store and extension-call counter included,
unchanged. -/
theorem reconnect_skipped_unless_unisat_identity (ready : Bool)
    (resp : Except JsError (List WalletAddress)) (s : ModalState)
    (h : ¬(s.store.wallet = some Wallet.UNISAT ∧ identityPresent s.store = true)) :
    connectToUnisatWalletOnLoad ready resp s = s := by
  rw [connectToUnisatWalletOnLoad, if_neg h]

/-- C10 witness: a persisted Xverse session is left exactly as it was by the
startup effect. -/
theorem reconnect_skipped_unless_unisat_identity_witness :
    ¬(xverseModalState.store.wallet = some Wallet.UNISAT ∧
      identityPresent xverseModalState.store = true) ∧
    connectToUnisatWalletOnLoad true (Except.ok [sampleAddr]) xverseModalState
      = xverseModalState :=
  ⟨by decide,
    reconnect_skipped_unless_unisat_identity true (Except.ok [sampleAddr])
      xverseModalState (by decide)⟩
